import Mathlib

/-!
# Verification of the rovo Diagnostics Engine (`NetworkEngine`)

Shallow embedding of `src/lib/engine` (class `NetworkEngine`): the dispatcher
`runTool` and the individual probes (`checkPort`, `grabBanner`, `checkSSL`,
`checkHeaders`, `gradeSecurityHeaders`, `traceRedirects`, `checkBlacklist`,
`simpleWhois`, `resolveDNS`).

Modelling conventions:
* The node runtime is represented by an explicit environment `Env`: DNS
  resolver oracles, a `fetch` oracle, and per-probe peer-behaviour scenarios.
* A socket with `setTimeout(ms)` follows first-event-wins semantics: the
  first peer event that arrives before `ms` milliseconds of inactivity wins,
  otherwise the `timeout` event fires.  A socket **without** `setTimeout`
  (as in `checkSSL`) never fires a timeout: against a silent peer no event
  ever arrives and the surrounding promise never resolves, which we model
  with the explicit outcome `hangs`.
* JavaScript exceptions are modelled as the `thrown` outcome; the single
  `try/catch` in `runTool` converts them to an error `ToolResult`.
* Timestamps (`new Date().toISOString()`) are environment noise shared by
  every result constructor and carry no probe-specific information; they are
  elided from the embedded `ToolResult`.
* JS falsiness of `""` and `0` in the `||` / ternary defaults is modelled
  explicitly (`jsOrStr`, `jsOrNat`).
-/

namespace Rovo

/-! ### JS string primitives

The JS string methods the engine uses (`includes`, `split`, `startsWith`,
`trim`, `substring`, `toUpperCase`, `parseInt`, `join`) are embedded as
structurally recursive functions over the character list of a `String`, so
that every concrete invocation evaluates inside the kernel. -/

/-- JS `s.includes(c)` for a one-character needle. -/
def includesChar (s : String) (c : Char) : Bool :=
  s.data.contains c

/-- JS `s.split(c)` on a list of characters: splitting on a one-character
separator, keeping empty fields (`"a:".split(':') = ["a", ""]`). -/
def splitCharList (c : Char) : List Char → List (List Char)
  | [] => [[]]
  | x :: xs =>
    let r := splitCharList c xs
    if x = c then [] :: r
    else
      match r with
      | [] => [[x]]
      | y :: ys => (x :: y) :: ys

/-- JS `s.split(c)` for a one-character separator. -/
def splitChar (s : String) (c : Char) : List String :=
  (splitCharList c s.data).map String.mk

/-- JS `parts.join(sep)`. -/
def joinSep (sep : String) : List String → String
  | [] => ""
  | [p] => p
  | p :: q :: rest => p ++ sep ++ joinSep sep (q :: rest)

/-- JS `s.startsWith(p)`. -/
def jsStartsWith (s p : String) : Bool :=
  p.data.isPrefixOf s.data

/-- JS `s.trim()`: strip leading and trailing whitespace. -/
def jsTrim (s : String) : String :=
  String.mk (((s.data.dropWhile Char.isWhitespace).reverse.dropWhile
    Char.isWhitespace).reverse)

/-- JS `s.substring(0, n)`. -/
def jsSubstringTo (s : String) (n : Nat) : String :=
  String.mk (s.data.take n)

/-- JS `s.toUpperCase()` (ASCII, which is all the record types use). -/
def jsToUpper (s : String) : String :=
  String.mk (s.data.map Char.toUpper)

/-- Accumulate the value of a digit string. -/
def digitsVal : List Char → Nat → Nat
  | [], acc => acc
  | c :: cs, acc => digitsVal cs (acc * 10 + (c.toNat - 48))

/-- JS `parseInt` restricted to the digit-prefix case the dispatcher feeds
it (a port string); `NaN` propagation is not modelled, no claim exercises
it. -/
def jsParseInt (s : String) : Nat :=
  digitsVal (s.data.takeWhile Char.isDigit) 0

/-- A JSON-like value, the shape of the `data` payloads the engine builds. -/
inductive JS where
  | str (s : String)
  | num (n : Int)
  | bool (b : Bool)
  | null
  | arr (xs : List JS)
  | obj (fields : List (String × JS))

/-- The status tag of the result envelope (`ToolResult.status` in `types.ts`). -/
inductive Status where
  | success
  | error
  | timeout
deriving DecidableEq

/-- The result envelope (`ToolResult` in `types.ts`), minus the timestamp. -/
structure ToolResult where
  status : Status
  data : Option JS
  message : Option String
  grade : Option String

/-- `NetworkEngine.success(data, grade)`. -/
def successR (data : JS) (grade : Option String) : ToolResult :=
  { status := Status.success, data := some data, message := none, grade := grade }

/-- `NetworkEngine.error(e)`: status `error` with the fault's message. -/
def errorR (message : String) : ToolResult :=
  { status := Status.error, data := none, message := some message, grade := none }

/-- How a single probe invocation can end, before the dispatcher's catch. -/
inductive ProbeOut where
  | ret (r : ToolResult)
  | thrown (msg : String)
  | hangs

/-- What `runTool`'s returned promise does. -/
inductive Outcome where
  | done (r : ToolResult)
  | hangs

/-- A network operation attempted by a probe (for the I/O-freedom claims). -/
inductive NetOp where
  | tcpConnect (host : String) (port : Nat)
  | tlsConnect (host : String)
  | dnsResolve (rtype : String) (name : String)
  | dnsReverse (ip : String)
  | httpFetch (url : String)
  | whoisConnect (server : String) (port : Nat)
deriving DecidableEq

/-- First socket event a peer produces for a bare TCP connect. -/
inductive ConnEvent where
  | connected
  | errored (msg : String)

/-- Peer behaviour seen by `grabBanner`'s socket (`setTimeout(3000)`).
Times are milliseconds of inactivity before the event. -/
inductive BannerScenario where
  | connectError (t : Nat) (msg : String)
  | noConnect
  | dataThen (t : Nat) (chunk : String)
  | closeNoData (t : Nat)
  | silentAfterConnect
  | errorAfterConnect (t : Nat) (msg : String)

/-- The peer certificate surfaced by `getPeerCertificate()`.  `validToTime`
is the epoch-milliseconds value `new Date(cert.valid_to).getTime()`. -/
structure Cert where
  subject : JS
  issuer : JS
  valid_from : String
  valid_to : String
  validToTime : Int

/-- Peer behaviour seen by `checkSSL`'s TLS socket (no timeout is set). -/
inductive SSLScenario where
  | handshake (cert : Cert) (authorized : Bool)
  | errorEv (msg : String)
  | silent

/-- Peer behaviour seen by `simpleWhois`'s socket (`setTimeout(5000)`). -/
inductive WhoisScenario where
  | connectError (msg : String)
  | respondsThenEnd (chunks : List String)
  | silentStall
  | errorAfter (msg : String)

/-- A `fetch` HEAD response: status code, header map as exposed by the
`Headers` object (keys lower-cased by the runtime), and the final URL
after redirect following. -/
structure FetchResp where
  statusCode : Nat
  headers : List (String × String)
  url : String

/-- `res.headers.has(h)` for a lower-case header name `h`. -/
def hasHeader (r : FetchResp) (h : String) : Bool :=
  r.headers.any (fun kv => kv.1 == h)

/-- The ambient runtime: resolver/fetch oracles and peer scenarios. -/
structure Env where
  now : Int
  dnsLookup : String → String → Except String JS
  dnsRev : String → Except String JS
  portPeer : String → Nat → Option (Nat × ConnEvent)
  banner : String → Nat → BannerScenario
  ssl : String → SSLScenario
  whois : WhoisScenario
  fetchHead : String → Except String FetchResp
  punyAscii : String → String
  punyUnicode : String → String
  hashHex : String → String → String
  uuid : String
  randomKey : String

/-- `EngineOptions` from `types.ts` (`prefix` is rendered as `pfx`). -/
structure EngineOptions where
  recordType : Option String := none
  pfx : Option String := none
  port : Option Nat := none

/-- JS `v || d` on strings: `none` and `""` are falsy. -/
def jsOrStr (v : Option String) (d : String) : String :=
  match v with
  | none => d
  | some "" => d
  | some s => s

/-- JS `v || d` on numbers: `none` and `0` are falsy. -/
def jsOrNat (v : Option Nat) (d : Nat) : Nat :=
  match v with
  | none => d
  | some 0 => d
  | some n => n

/-- The dispatcher's `host:port` parsing:
`options.port || (query.includes(':') ? parseInt(query.split(':')[1]) : def)`
and `query.includes(':') ? query.split(':')[0] : query`. -/
def hostPortOf (query : String) (defPort : Nat) (optPort : Option Nat) : String × Nat :=
  let port := jsOrNat optPort
    (if includesChar query ':' then jsParseInt ((splitChar query ':').getD 1 "")
     else defPort)
  let host := if includesChar query ':' then (splitChar query ':').getD 0 "" else query
  (host, port)

/-- The record-type switch of `resolveDNS`: which resolver is called.
Unrecognized or absent types fall through to `resolve4` (`"A"`);
`"PTR"` routes to `dns.reverse`. -/
def resolverKey (type : String) : String :=
  match jsToUpper type with
  | "MX" => "MX"
  | "TXT" => "TXT"
  | "NS" => "NS"
  | "SOA" => "SOA"
  | "AAAA" => "AAAA"
  | "CNAME" => "CNAME"
  | "SRV" => "SRV"
  | "CAA" => "CAA"
  | "PTR" => "PTR"
  | _ => "A"

/-- `NetworkEngine.resolveDNS(domain, type)`.  Resolver faults propagate as
thrown exceptions (the method has no `try/catch` of its own). -/
def resolveDNS (env : Env) (domain : String) (type : String) : ProbeOut × List NetOp :=
  let k := resolverKey type
  if k = "PTR" then
    match env.dnsRev domain with
    | Except.ok v => (ProbeOut.ret (successR v none), [NetOp.dnsReverse domain])
    | Except.error e => (ProbeOut.thrown e, [NetOp.dnsReverse domain])
  else
    match env.dnsLookup k domain with
    | Except.ok v => (ProbeOut.ret (successR v none), [NetOp.dnsResolve k domain])
    | Except.error e => (ProbeOut.thrown e, [NetOp.dnsResolve k domain])

/-- `NetworkEngine.checkPort(host, port)`: socket with `setTimeout(2000)`.
`peer` is the first peer event with its arrival time; `none` means the peer
stays silent, so the 2000 ms timeout event fires and the handler resolves
with `error('Connection Timed Out')`. -/
def checkPort (host : String) (port : Nat) (peer : Option (Nat × ConnEvent)) : ToolResult :=
  match peer with
  | some (t, e) =>
    if t < 2000 then
      match e with
      | ConnEvent.connected =>
          successR (JS.obj [("status", JS.str "Open"), ("port", JS.num port),
                            ("host", JS.str host)]) none
      | ConnEvent.errored m => errorR ("Closed or Blocked: " ++ m)
    else errorR "Connection Timed Out"
  | none => errorR "Connection Timed Out"

/-- `banner.trim() || 'Connected (No Banner)'` wrapped in the payload. -/
def bannerPayload (banner : String) : JS :=
  let b := jsTrim banner
  JS.obj [("banner", JS.str (if b = "" then "Connected (No Banner)" else b))]

/-- `NetworkEngine.grabBanner(host, port)`: socket with `setTimeout(3000)`.
On `data` the first chunk is kept and the socket destroyed (`close` then
resolves success); a peer `close` with no data also resolves success (the
empty banner becomes the sentinel); the `timeout` event resolves
`error('Timeout waiting for banner')`; `error` events resolve `error`. -/
def grabBanner (host : String) (port : Nat) (s : BannerScenario) : ToolResult :=
  match s with
  | BannerScenario.connectError t m =>
      if t < 3000 then errorR m else errorR "Timeout waiting for banner"
  | BannerScenario.noConnect => errorR "Timeout waiting for banner"
  | BannerScenario.dataThen t chunk =>
      if t < 3000 then successR (bannerPayload chunk) none
      else errorR "Timeout waiting for banner"
  | BannerScenario.closeNoData t =>
      if t < 3000 then successR (bannerPayload "") none
      else errorR "Timeout waiting for banner"
  | BannerScenario.silentAfterConnect => errorR "Timeout waiting for banner"
  | BannerScenario.errorAfterConnect t m =>
      if t < 3000 then errorR m else errorR "Timeout waiting for banner"

/-- `Math.floor((new Date(cert.valid_to).getTime() - Date.now()) / 86400000)`:
floor division of the millisecond delta by one day. -/
def daysRemaining (validToTime now : Int) : Int :=
  Int.fdiv (validToTime - now) 86400000

/-- `NetworkEngine.checkSSL(host)`: `tls.connect(443, host)` with **no**
`setTimeout` — against a silent peer no event fires and the promise never
resolves (`hangs`). -/
def checkSSL (host : String) (now : Int) (s : SSLScenario) : ProbeOut :=
  match s with
  | SSLScenario.handshake cert authorized =>
      ProbeOut.ret (successR (JS.obj [
        ("valid", JS.bool authorized),
        ("subject", cert.subject),
        ("issuer", cert.issuer),
        ("valid_from", JS.str cert.valid_from),
        ("valid_to", JS.str cert.valid_to),
        ("days_remaining", JS.num (daysRemaining cert.validToTime now))]) none)
  | SSLScenario.errorEv m => ProbeOut.ret (errorR m)
  | SSLScenario.silent => ProbeOut.hangs

/-- `if (!url.startsWith('http')) url = 'https://' + url`. -/
def normalizeUrl (url : String) : String :=
  if jsStartsWith url "http" then url else "https://" ++ url

/-- The response-header map rebuilt by `checkHeaders`. -/
def headersObj (hs : List (String × String)) : JS :=
  JS.obj (hs.map (fun kv => (kv.1, JS.str kv.2)))

/-- `NetworkEngine.checkHeaders(url)`: a `fetch` fault propagates as a thrown
exception (no local `try/catch`). -/
def checkHeaders (env : Env) (url : String) : ProbeOut × List NetOp :=
  let u := normalizeUrl url
  match env.fetchHead u with
  | Except.ok res =>
      (ProbeOut.ret (successR (JS.obj [("status", JS.num res.statusCode),
        ("headers", headersObj res.headers)]) none), [NetOp.httpFetch u])
  | Except.error e => (ProbeOut.thrown e, [NetOp.httpFetch u])

/-- The fixed header set of `gradeSecurityHeaders`. -/
def requiredHeaders : List String :=
  ["strict-transport-security", "content-security-policy",
   "x-frame-options", "x-content-type-options"]

/-- One iteration of the `required.forEach` loop: keep score on PASS,
subtract 20 and record FAIL otherwise. -/
def gradeStep (has : String → Bool) (acc : Int × List (String × String))
    (h : String) : Int × List (String × String) :=
  if has h then (acc.1, acc.2 ++ [(h, "PASS")])
  else (acc.1 - 20, acc.2 ++ [(h, "FAIL")])

/-- The per-header breakdown as emitted (`{header, status}` objects). -/
def detailsJS (ds : List (String × String)) : JS :=
  JS.arr (ds.map (fun d => JS.obj [("header", JS.str d.1), ("status", JS.str d.2)]))

/-- `score >= 80 ? 'A' : score >= 60 ? 'B' : 'F'`. -/
def letterGrade (score : Int) : String :=
  if score ≥ 80 then "A" else if score ≥ 60 then "B" else "F"

/-- `NetworkEngine.gradeSecurityHeaders(domain)`: has its own `try/catch`,
so a `fetch` fault becomes an error result rather than a thrown exception. -/
def gradeSecurityHeaders (env : Env) (domain : String) : ProbeOut × List NetOp :=
  let u := normalizeUrl domain
  match env.fetchHead u with
  | Except.ok res =>
      let sd := requiredHeaders.foldl (gradeStep (hasHeader res)) (100, [])
      (ProbeOut.ret (successR (JS.obj [("details", detailsJS sd.2)])
        (some (letterGrade sd.1))), [NetOp.httpFetch u])
  | Except.error e => (ProbeOut.ret (errorR e), [NetOp.httpFetch u])

/-- `NetworkEngine.traceRedirects(url)`: fetches twice with auto-follow,
records the origin and (if different) the final URL; local `try/catch`. -/
def traceRedirects (env : Env) (url : String) : ProbeOut × List NetOp :=
  let u := normalizeUrl url
  match env.fetchHead u with
  | Except.error e => (ProbeOut.ret (errorR e), [NetOp.httpFetch u])
  | Except.ok _ =>
    match env.fetchHead u with
    | Except.error e => (ProbeOut.ret (errorR e), [NetOp.httpFetch u, NetOp.httpFetch u])
    | Except.ok res =>
      let hops := if res.url = u then [u] else [u, res.url]
      (ProbeOut.ret (successR (JS.obj [
          ("hops", JS.arr (hops.map JS.str)),
          ("final", JS.str res.url),
          ("status", JS.num res.statusCode)]) none),
       [NetOp.httpFetch u, NetOp.httpFetch u])

/-- The fixed blacklist zones of `checkBlacklist`. -/
def rbls : List String := ["zen.spamhaus.org", "b.barracudacentral.org"]

/-- `ip.split('.').reverse().join('.')`. -/
def reverseIp (ip : String) : String :=
  joinSep "." (splitChar ip '.').reverse

/-- One zone lookup of `checkBlacklist`: `resolve4` success means LISTED,
any resolver failure means CLEAN. -/
def blacklistEntry (env : Env) (rev : String) (host : String) : String × String :=
  match env.dnsLookup "A" (rev ++ "." ++ host) with
  | Except.ok _ => (host, "LISTED")
  | Except.error _ => (host, "CLEAN")

/-- A zone entry rendered as the `{rbl, status}` object. -/
def rblJS (e : String × String) : JS :=
  JS.obj [("rbl", JS.str e.1), ("status", JS.str e.2)]

/-- `NetworkEngine.checkBlacklist(ip)`: `Promise.all` over the fixed zone
list — the result array is in zone-list order by construction, independent
of which lookup settles first. -/
def checkBlacklist (env : Env) (ip : String) : ProbeOut × List NetOp :=
  let rev := reverseIp ip
  (ProbeOut.ret (successR
      (JS.arr (rbls.map (fun h => rblJS (blacklistEntry env rev h)))) none),
   rbls.map (fun h => NetOp.dnsResolve "A" (rev ++ "." ++ h)))

/-- `NetworkEngine.simpleWhois(domain)`: socket with `setTimeout(5000)` to
`whois.iana.org:43`; on peer `end` the accumulated text is truncated to
1500 characters; the `timeout` event resolves `error('Whois timeout')`. -/
def simpleWhois (domain : String) (s : WhoisScenario) : ToolResult :=
  match s with
  | WhoisScenario.connectError m => errorR m
  | WhoisScenario.respondsThenEnd chunks =>
      successR (JS.obj [("raw", JS.str (jsSubstringTo (String.join chunks) 1500))]) none
  | WhoisScenario.silentStall => errorR "Whois timeout"
  | WhoisScenario.errorAfter m => errorR m

/-- The case labels of `runTool`'s switch: the recognized probe kinds. -/
def handledKinds : List String :=
  ["dns", "dns-txt", "dns-ptr", "ping", "tcp", "banner", "ssl", "tls-check",
   "my-ip", "blacklist", "headers", "headers-grade", "trace-redirect",
   "punycode", "crypto-hash", "crypto-uuid", "whois"]

/-- The body of `runTool`'s `try` block: input validation then the switch.
The validation throw and the default-case throw surface as `thrown`. -/
def dispatch (env : Env) (apiType : String) (query : String)
    (opts : EngineOptions) : ProbeOut × List NetOp :=
  if query = "" ∧ apiType ≠ "my-ip" ∧ apiType ≠ "crypto-uuid" then
    (ProbeOut.thrown "Input query is required", [])
  else
    match apiType with
    | "dns" => resolveDNS env query (jsOrStr opts.recordType "A")
    | "dns-txt" =>
        resolveDNS env
          (match opts.pfx with
           | none => query
           | some p => if p = "" then query else p ++ "." ++ query) "TXT"
    | "dns-ptr" =>
        (match env.dnsRev query with
         | Except.ok v => (ProbeOut.ret (successR v none), [NetOp.dnsReverse query])
         | Except.error e => (ProbeOut.thrown e, [NetOp.dnsReverse query]))
    | "ping" | "tcp" =>
        let hp := hostPortOf query 80 opts.port
        (ProbeOut.ret (checkPort hp.1 hp.2 (env.portPeer hp.1 hp.2)),
         [NetOp.tcpConnect hp.1 hp.2])
    | "banner" =>
        let hp := hostPortOf query 22 opts.port
        (ProbeOut.ret (grabBanner hp.1 hp.2 (env.banner hp.1 hp.2)),
         [NetOp.tcpConnect hp.1 hp.2])
    | "ssl" | "tls-check" =>
        (checkSSL query env.now (env.ssl query), [NetOp.tlsConnect query])
    | "my-ip" =>
        (ProbeOut.ret (successR (JS.obj
          [("message", JS.str "Resolved at Edge via Headers")]) none), [])
    | "blacklist" => checkBlacklist env query
    | "headers" => checkHeaders env query
    | "headers-grade" => gradeSecurityHeaders env query
    | "trace-redirect" => traceRedirects env query
    | "punycode" =>
        (ProbeOut.ret (successR (JS.obj [
          ("ascii", JS.str (env.punyAscii query)),
          ("unicode", JS.str (env.punyUnicode query))]) none), [])
    | "crypto-hash" =>
        (ProbeOut.ret (successR (JS.obj [
          ("md5", JS.str (env.hashHex "md5" query)),
          ("sha1", JS.str (env.hashHex "sha1" query)),
          ("sha256", JS.str (env.hashHex "sha256" query)),
          ("sha512", JS.str (env.hashHex "sha512" query))]) none), [])
    | "crypto-uuid" =>
        (ProbeOut.ret (successR (JS.obj [
          ("uuid_v4", JS.str env.uuid),
          ("api_key", JS.str env.randomKey)]) none), [])
    | "whois" =>
        (ProbeOut.ret (simpleWhois query env.whois),
         [NetOp.whoisConnect "whois.iana.org" 43])
    | _ =>
        (ProbeOut.thrown ("Tool implementation for " ++ apiType ++ " is missing."),
         [])

/-- `runTool`'s top-level `catch`: a thrown fault becomes an error result;
a promise that never resolves stays unresolved. -/
def wrapOut : ProbeOut → Outcome
  | ProbeOut.ret r => Outcome.done r
  | ProbeOut.thrown m => Outcome.done (errorR m)
  | ProbeOut.hangs => Outcome.hangs

/-- `NetworkEngine.runTool(apiType, query, options)`. -/
def runTool (env : Env) (apiType : String) (query : String)
    (opts : EngineOptions) : Outcome × List NetOp :=
  (wrapOut (dispatch env apiType query opts).1, (dispatch env apiType query opts).2)

/-! ## Concrete environments used by witnesses and counterexamples -/

/-- An environment whose peers all stall: every connection is accepted at the
TCP level but no peer ever sends an event, every resolver and fetch fails. -/
def stalledEnv : Env :=
  { now := 0
    dnsLookup := fun _ _ => Except.error "queryA ENOTFOUND"
    dnsRev := fun _ => Except.error "getHostByAddr ENOTFOUND"
    portPeer := fun _ _ => none
    banner := fun _ _ => BannerScenario.silentAfterConnect
    ssl := fun _ => SSLScenario.silent
    whois := WhoisScenario.silentStall
    fetchHead := fun _ => Except.error "fetch failed"
    punyAscii := fun s => s
    punyUnicode := fun s => s
    hashHex := fun _ _ => ""
    uuid := ""
    randomKey := "" }

/-- A response carrying all four required security headers. -/
def fullHeadersResp : FetchResp :=
  { statusCode := 200
    headers := [("strict-transport-security", "max-age=63072000"),
                ("content-security-policy", "default-src https:"),
                ("x-frame-options", "DENY"),
                ("x-content-type-options", "nosniff")]
    url := "https://example.com" }

/-- A response missing exactly one required header (`x-content-type-options`). -/
def threeHeadersResp : FetchResp :=
  { statusCode := 200
    headers := [("strict-transport-security", "max-age=63072000"),
                ("content-security-policy", "default-src https:"),
                ("x-frame-options", "DENY")]
    url := "https://example.com" }

/-- `stalledEnv` with `fetch` answering `fullHeadersResp`. -/
def fullHeadersEnv : Env :=
  { stalledEnv with fetchHead := fun _ => Except.ok fullHeadersResp }

/-- `stalledEnv` with `fetch` answering `threeHeadersResp`. -/
def threeHeadersEnv : Env :=
  { stalledEnv with fetchHead := fun _ => Except.ok threeHeadersResp }

/-! ## Claim theorems -/

/-- C1: the claim states every probe kind — including the TLS certificate
probe — reaches a terminal Result within its own configured deadline and can
never hang.  The code violates this for the TLS probe: `checkSSL` sets no
timeout on its TLS socket, so against a peer that accepts the connection but
never completes the handshake, `runTool "ssl"` never resolves.  The
TCP/ping probe (2 s) and WHOIS probe (5 s) do terminate on their timers as
claimed, shown alongside for contrast. -/
theorem c1_ssl_probe_hangs_without_deadline :
    runTool stalledEnv "ssl" "example.com" {} =
      (Outcome.hangs, [NetOp.tlsConnect "example.com"])
    ∧ runTool stalledEnv "tcp" "example.com" {} =
      (Outcome.done (errorR "Connection Timed Out"), [NetOp.tcpConnect "example.com" 80])
    ∧ runTool stalledEnv "whois" "example.com" {} =
      (Outcome.done (errorR "Whois timeout"), [NetOp.whoisConnect "whois.iana.org" 43]) :=
  ⟨rfl, rfl, rfl⟩

/-- C2 counterexample: the claim states that when a probe's deadline timer
fires the Result has status `timeout`.  On the TCP probe against a silent
peer the 2 s timer fires and the returned status is `error`, not
`timeout`. -/
theorem c2_timeout_status_not_produced :
    (runTool stalledEnv "tcp" "example.com" {}).1 =
      Outcome.done (errorR "Connection Timed Out")
    ∧ (errorR "Connection Timed Out").status ≠ Status.timeout :=
  ⟨rfl, by decide⟩

/-- C2 amended: when a probe's own deadline timer fires (TCP/ping connect,
banner, WHOIS), the Result has status `error` with a message identifying the
timeout (`Connection Timed Out`, `Timeout waiting for banner`,
`Whois timeout`); the declared `timeout` status is never produced, so callers
disambiguate deadline expiry from other faults by message only. -/
theorem c2_deadline_expiry_reported_as_error (host domain : String) (port : Nat) :
    checkPort host port none = errorR "Connection Timed Out"
    ∧ grabBanner host port BannerScenario.silentAfterConnect =
        errorR "Timeout waiting for banner"
    ∧ simpleWhois domain WhoisScenario.silentStall = errorR "Whois timeout"
    ∧ (errorR "Connection Timed Out").status = Status.error
    ∧ (errorR "Timeout waiting for banner").status = Status.error
    ∧ (errorR "Whois timeout").status = Status.error :=
  ⟨rfl, rfl, rfl, rfl, rfl, rfl⟩

/-- C6 counterexample: the claim states that a banner-probe connection with
no data before the timeout returns `success` with the sentinel payload.  In
the code the `timeout` handler resolves `error('Timeout waiting for
banner')`: silence until the deadline is a failure. -/
theorem c6_silence_until_timeout_is_error :
    grabBanner "example.com" 22 BannerScenario.silentAfterConnect =
      errorR "Timeout waiting for banner"
    ∧ (errorR "Timeout waiting for banner").status ≠ Status.success :=
  ⟨rfl, by decide⟩

/-- C6 amended: the sentinel `Connected (No Banner)` success is returned when
the peer closes the connection before the 3 s timeout without sending data;
when nothing arrives before the timeout fires, the probe instead returns
status `error` with message `Timeout waiting for banner`. -/
theorem c6_sentinel_on_close_without_data (host : String) (port t : Nat)
    (h : t < 3000) :
    grabBanner host port (BannerScenario.closeNoData t) =
      successR (JS.obj [("banner", JS.str "Connected (No Banner)")]) none
    ∧ grabBanner host port BannerScenario.silentAfterConnect =
      errorR "Timeout waiting for banner" := by
  refine ⟨?_, rfl⟩
  show (if t < 3000 then successR (bannerPayload "") none
        else errorR "Timeout waiting for banner") =
      successR (JS.obj [("banner", JS.str "Connected (No Banner)")]) none
  rw [if_pos h]
  rfl

/-- Witness for `c6_sentinel_on_close_without_data` at `t = 0`. -/
theorem c6_sentinel_on_close_without_data_witness :
    grabBanner "example.com" 22 (BannerScenario.closeNoData 0) =
      successR (JS.obj [("banner", JS.str "Connected (No Banner)")]) none
    ∧ grabBanner "example.com" 22 BannerScenario.silentAfterConnect =
      errorR "Timeout waiting for banner" :=
  c6_sentinel_on_close_without_data "example.com" 22 0 (by decide)

/-- C9 counterexample: the claim states the empty-target error message is
`input required`; the code's message is `Input query is required`. -/
theorem c9_empty_target_message_differs :
    runTool stalledEnv "dns" "" {} =
      (Outcome.done (errorR "Input query is required"), [])
    ∧ (errorR "Input query is required").message ≠ some "input required" :=
  ⟨rfl, by decide⟩

/-- C9 amended: for every kind outside the no-input set (`my-ip`,
`crypto-uuid`), an empty target returns status `error` with message
`Input query is required`, and no network operation is attempted. -/
theorem c9_empty_target_rejected_before_io (env : Env) (apiType : String)
    (opts : EngineOptions) (h1 : apiType ≠ "my-ip") (h2 : apiType ≠ "crypto-uuid") :
    runTool env apiType "" opts =
      (Outcome.done (errorR "Input query is required"), []) := by
  unfold runTool dispatch
  rw [if_pos ⟨rfl, h1, h2⟩]
  rfl

/-- Witness for `c9_empty_target_rejected_before_io` at kind `tcp`. -/
theorem c9_empty_target_rejected_before_io_witness :
    runTool stalledEnv "tcp" "" {} =
      (Outcome.done (errorR "Input query is required"), []) :=
  c9_empty_target_rejected_before_io stalledEnv "tcp" {} (by decide) (by decide)

/-- Helper: on a kind outside the switch's case labels (and a non-empty
query) the dispatcher reaches the default case, which throws the
unknown-kind message without touching the network. -/
theorem dispatch_unknown_kind (env : Env) (query : String) (opts : EngineOptions)
    (apiType : String) (hq : query ≠ "") (hk : apiType ∉ handledKinds) :
    dispatch env apiType query opts =
      (ProbeOut.thrown ("Tool implementation for " ++ apiType ++ " is missing."), []) := by
  unfold dispatch
  rw [if_neg (fun h => hq h.1)]
  split
  all_goals simp_all [handledKinds]

/-- C3: for every kind not recognized by the routing table (and a non-empty
target, so input validation does not fire first), `runTool` returns status
`error` with the message naming the unknown kind, never throws to the
caller, and attempts no network operation. -/
theorem c3_unknown_kind_is_error_without_io (env : Env) (apiType query : String)
    (opts : EngineOptions) (hq : query ≠ "") (hk : apiType ∉ handledKinds) :
    runTool env apiType query opts =
      (Outcome.done (errorR ("Tool implementation for " ++ apiType ++ " is missing.")),
       []) := by
  unfold runTool
  rw [dispatch_unknown_kind env query opts apiType hq hk]
  rfl

/-- Witness for `c3_unknown_kind_is_error_without_io` at kind `smtp-test`
(declared in the `ApiType` union but absent from the switch). -/
theorem c3_unknown_kind_is_error_without_io_witness :
    runTool stalledEnv "smtp-test" "example.com" {} =
      (Outcome.done (errorR "Tool implementation for smtp-test is missing."), []) :=
  c3_unknown_kind_is_error_without_io stalledEnv "smtp-test" "example.com" {}
    (by decide) (by decide)

/-- The number of required security headers absent from a response. -/
def missingCount (has : String → Bool) : Nat :=
  (requiredHeaders.filter (fun h => ! has h)).length

/-- Helper: the grading probe's output in closed form — score is
`100 - 20 * missingCount`, the grade is its letter mapping, and the data
payload is the per-header PASS/FAIL breakdown in header-set order. -/
theorem gradeSecurityHeaders_closed_form (env : Env) (url : String)
    (resp : FetchResp) (hf : env.fetchHead (normalizeUrl url) = Except.ok resp) :
    gradeSecurityHeaders env url =
      (ProbeOut.ret (successR
        (JS.obj [("details", detailsJS (requiredHeaders.map
          (fun h => (h, if hasHeader resp h then "PASS" else "FAIL"))))])
        (some (letterGrade (100 - 20 * (missingCount (hasHeader resp) : Int))))),
       [NetOp.httpFetch (normalizeUrl url)]) := by
  simp only [gradeSecurityHeaders]
  rw [hf]
  unfold missingCount requiredHeaders gradeStep
  cases h1 : hasHeader resp "strict-transport-security" <;>
    cases h2 : hasHeader resp "content-security-policy" <;>
      cases h3 : hasHeader resp "x-frame-options" <;>
        cases h4 : hasHeader resp "x-content-type-options" <;>
          simp_all

/-- C4: for every response obtained by the grading probe, the score is 100
minus 20 per missing header from the fixed four-header set, the grade is the
letter mapping (≥ 80 → A, ≥ 60 → B, else F) of that score, the grade sits in
the envelope's top-level `grade` field, and the data payload is the
per-header PASS/FAIL breakdown. -/
theorem c4_security_header_grading (env : Env) (url : String) (resp : FetchResp)
    (hf : env.fetchHead (normalizeUrl url) = Except.ok resp) :
    gradeSecurityHeaders env url =
      (ProbeOut.ret
        { status := Status.success
          data := some (JS.obj [("details", detailsJS (requiredHeaders.map
            (fun h => (h, if hasHeader resp h then "PASS" else "FAIL"))))])
          message := none
          grade := some (letterGrade (100 - 20 * (missingCount (hasHeader resp) : Int))) },
       [NetOp.httpFetch (normalizeUrl url)]) :=
  gradeSecurityHeaders_closed_form env url resp hf

/-- Witness for `c4_security_header_grading`: a response carrying all four
headers grades A with a four-PASS breakdown. -/
theorem c4_security_header_grading_witness :
    gradeSecurityHeaders fullHeadersEnv "example.com" =
      (ProbeOut.ret
        { status := Status.success
          data := some (JS.obj [("details", detailsJS (requiredHeaders.map
            (fun h => (h, if hasHeader fullHeadersResp h then "PASS" else "FAIL"))))])
          message := none
          grade := some (letterGrade
            (100 - 20 * (missingCount (hasHeader fullHeadersResp) : Int))) },
       [NetOp.httpFetch (normalizeUrl "example.com")]) :=
  c4_security_header_grading fullHeadersEnv "example.com" fullHeadersResp rfl

/-- The grade of a probe outcome, for stating the grading claims. -/
def resultGrade : ProbeOut → Option String
  | ProbeOut.ret r => r.grade
  | ProbeOut.thrown _ => none
  | ProbeOut.hangs => none

/-- C5 counterexample: the claim states a response with exactly three of the
four required headers grades "B".  The code's score is 80 and
`score >= 80` maps to "A": missing exactly one header grades "A", not
"B". -/
theorem c5_missing_one_header_grades_A :
    resultGrade (gradeSecurityHeaders threeHeadersEnv "example.com").1 = some "A"
    ∧ some "A" ≠ some "B" :=
  ⟨rfl, by decide⟩

/-- C5 amended: a response missing at most one required header grades "A"
(score 100 or 80), missing exactly two grades "B" (60), and missing three or
more grades "F" (≤ 40). -/
theorem c5_grade_by_missing_count (env : Env) (url : String) (resp : FetchResp)
    (hf : env.fetchHead (normalizeUrl url) = Except.ok resp) :
    resultGrade (gradeSecurityHeaders env url).1 =
      some (if missingCount (hasHeader resp) ≤ 1 then "A"
            else if missingCount (hasHeader resp) = 2 then "B" else "F") := by
  rw [gradeSecurityHeaders_closed_form env url resp hf]
  have hle : missingCount (hasHeader resp) ≤ 4 := by
    unfold missingCount
    exact le_trans (List.length_filter_le _ _) (by decide)
  unfold resultGrade successR letterGrade
  rcases Nat.lt_or_ge (missingCount (hasHeader resp)) 2 with hm | hm
  · rw [if_pos (by omega : missingCount (hasHeader resp) ≤ 1),
      if_pos (by omega : (80 : Int) ≤ 100 - 20 * (missingCount (hasHeader resp) : Int))]
  · rw [if_neg (by omega : ¬ missingCount (hasHeader resp) ≤ 1),
      if_neg (by omega : ¬ (80 : Int) ≤ 100 - 20 * (missingCount (hasHeader resp) : Int))]
    rcases Nat.eq_or_lt_of_le hm with hm2 | hm2
    · rw [if_pos (by omega : missingCount (hasHeader resp) = 2),
        if_pos (by omega : (60 : Int) ≤ 100 - 20 * (missingCount (hasHeader resp) : Int))]
    · rw [if_neg (by omega : ¬ missingCount (hasHeader resp) = 2),
        if_neg (by omega : ¬ (60 : Int) ≤ 100 - 20 * (missingCount (hasHeader resp) : Int))]

/-- Witness for `c5_grade_by_missing_count` at a response missing exactly
one header. -/
theorem c5_grade_by_missing_count_witness :
    resultGrade (gradeSecurityHeaders threeHeadersEnv "example.com").1 =
      some (if missingCount (hasHeader threeHeadersResp) ≤ 1 then "A"
            else if missingCount (hasHeader threeHeadersResp) = 2 then "B" else "F") :=
  c5_grade_by_missing_count threeHeadersEnv "example.com" threeHeadersResp rfl

/-- C7: for every completed TLS handshake the probe returns a success Result
whose `days_remaining` is the floor of the millisecond delta
`valid_to − now` in whole days; the value is negative exactly when
`valid_to` is already in the past, and an expired certificate still yields a
success Result, not a fault. -/
theorem c7_days_remaining_is_floor (host : String) (now : Int) (cert : Cert)
    (auth : Bool) :
    checkSSL host now (SSLScenario.handshake cert auth) =
      ProbeOut.ret (successR (JS.obj [
        ("valid", JS.bool auth),
        ("subject", cert.subject),
        ("issuer", cert.issuer),
        ("valid_from", JS.str cert.valid_from),
        ("valid_to", JS.str cert.valid_to),
        ("days_remaining", JS.num (daysRemaining cert.validToTime now))]) none)
    ∧ daysRemaining cert.validToTime now =
        Int.floor (((cert.validToTime - now : Int) : ℚ) / ((86400000 : Nat) : ℚ))
    ∧ (daysRemaining cert.validToTime now < 0 ↔ cert.validToTime < now) := by
  refine ⟨rfl, ?_, ?_⟩
  · unfold daysRemaining
    rw [Int.fdiv_eq_ediv _ (by decide), Rat.floor_intCast_div_natCast]
    norm_num
  · unfold daysRemaining
    rw [Int.fdiv_eq_ediv _ (by decide)]
    constructor
    · intro h
      by_contra hc
      push_neg at hc
      exact absurd (Int.ediv_nonneg (by omega) (by decide)) (not_le.mpr h)
    · intro h
      exact Int.ediv_neg' (by omega) (by decide)

/-- C8: the blacklist probe reverses the IPv4 octet order, resolves
`reversed-ip.zone` for each of the two fixed zones, and returns exactly one
entry per zone in the fixed zone order (the `Promise.all` result array is in
zone-list position order, independent of completion order); a zone is LISTED
exactly when its own resolution succeeds, CLEAN when it fails. -/
theorem c8_blacklist_one_entry_per_zone (env : Env) (ip : String) :
    checkBlacklist env ip =
      (ProbeOut.ret (successR (JS.arr
        [rblJS (blacklistEntry env (reverseIp ip) "zen.spamhaus.org"),
         rblJS (blacklistEntry env (reverseIp ip) "b.barracudacentral.org")]) none),
       [NetOp.dnsResolve "A" (reverseIp ip ++ "." ++ "zen.spamhaus.org"),
        NetOp.dnsResolve "A" (reverseIp ip ++ "." ++ "b.barracudacentral.org")])
    ∧ (∀ zone : String, (blacklistEntry env (reverseIp ip) zone).2 = "LISTED" ↔
        ∃ v, env.dnsLookup "A" (reverseIp ip ++ "." ++ zone) = Except.ok v)
    ∧ (∀ zone : String, (blacklistEntry env (reverseIp ip) zone).1 = zone)
    ∧ reverseIp "1.2.3.4" = "4.3.2.1" := by
  refine ⟨rfl, ?_, ?_, rfl⟩
  · intro zone
    unfold blacklistEntry
    cases hd : env.dnsLookup "A" (reverseIp ip ++ "." ++ zone) <;> simp [hd]
  · intro zone
    unfold blacklistEntry
    cases env.dnsLookup "A" (reverseIp ip ++ "." ++ zone) <;> rfl

/-- Whether `needle` occurs as a contiguous run inside the second list. -/
def containsSub (needle : List Char) : List Char → Bool
  | [] => needle.isEmpty
  | x :: xs => needle.isPrefixOf (x :: xs) || containsSub needle xs

/-- How the claim's "carries a URL scheme" reads, modelled from the spec's
words: the input contains the `://` scheme separator. -/
def specCarriesScheme (s : String) : Bool :=
  containsSub ("://".data) s.data

/-- C10 counterexample: the claim states an input that already carries a
scheme is passed through unchanged.  The code only tests
`startsWith('http')`, so `ftp://example.com` — which carries a scheme — is
prefixed anyway and fetched as `https://ftp://example.com`. -/
theorem c10_scheme_input_not_preserved :
    specCarriesScheme "ftp://example.com" = true
    ∧ (checkHeaders stalledEnv "ftp://example.com").2 =
        [NetOp.httpFetch "https://ftp://example.com"]
    ∧ "https://ftp://example.com" ≠ "ftp://example.com" :=
  ⟨rfl, rfl, by decide⟩

/-- C10 amended: each of the three HTTP inspection probes fetches exactly
the normalized URL, and normalization prefixes `https://` exactly when the
input does not start with the literal `http` — an input starting with
`http` (scheme or not) passes through unchanged, while an input with a
non-http scheme is prefixed a second time. -/
theorem c10_http_probes_normalize_by_startsWith (env : Env) (url : String) :
    (checkHeaders env url).2 = [NetOp.httpFetch (normalizeUrl url)]
    ∧ (gradeSecurityHeaders env url).2 = [NetOp.httpFetch (normalizeUrl url)]
    ∧ ((traceRedirects env url).2 = [NetOp.httpFetch (normalizeUrl url)]
       ∨ (traceRedirects env url).2 =
          [NetOp.httpFetch (normalizeUrl url), NetOp.httpFetch (normalizeUrl url)])
    ∧ normalizeUrl url =
        (if jsStartsWith url "http" then url else "https://" ++ url) := by
  refine ⟨?_, ?_, ?_, rfl⟩
  · simp only [checkHeaders]
    cases h : env.fetchHead (normalizeUrl url) <;> simp [h]
  · simp only [gradeSecurityHeaders]
    cases h : env.fetchHead (normalizeUrl url) <;> simp [h]
  · simp only [traceRedirects]
    cases h : env.fetchHead (normalizeUrl url) with
    | error e => exact Or.inl (by simp [h])
    | ok res => exact Or.inr (by simp [h])

end Rovo
